import Mathlib

/-!
Verification of the filtering / classification / KPI / forecast pipeline of
the AQI dashboard in `src/app.py`, shallowly embedded in Lean.

A loaded table is a list of rows.  Missing values (pandas NaN / NaT) are
modelled as `none`: `Option ℚ` stands for a float column entry, and every
ordered comparison against `none` evaluates to `false`, exactly as IEEE-754
comparisons against NaN do in Python.  Columns that may or may not have been
detected by the auto-detection pass (`city_col`, the derived `Year` column)
are modelled by Boolean existence flags, so that the conditional filter
sections of the script become conditional pipeline stages.
-/

/-- One row of the loaded dataframe, restricted to the fields the pipeline
reads: the detected city column, the derived `Year` column, and the value of
the currently selected numeric (pollutant) column.  `none` models a missing
value (NaN). -/
structure Row where
  city : Option String
  year : Option Int
  value : Option ℚ
  deriving DecidableEq, Repr

/-- An ordered sequence of readings sharing one schema. -/
abbrev Table := List Row

/-- The `classify_aqi` function of `src/app.py` (lines 47-53), applied to a
present numeric value. -/
def classify_aqi (aqi : ℚ) : String :=
  if aqi ≤ 50 then "Good"
  else if aqi ≤ 100 then "Satisfactory"
  else if aqi ≤ 200 then "Moderate"
  else if aqi ≤ 300 then "Poor"
  else if aqi ≤ 400 then "Very Poor"
  else "Severe"

/-- The floating-point comparison `aqi <= t` as evaluated inside
`classify_aqi` when the column entry may be NaN (`none`): every ordered
comparison involving NaN is false. -/
def fleB : Option ℚ → ℚ → Bool
  | some v, t => decide (v ≤ t)
  | none, _ => false

/-- `classify_aqi` as applied row-wise by
`df["AQI_Category"] = df[aqi_col].apply(classify_aqi)` (line 56) to a float
column that may contain NaN entries. -/
def classifyF (aqi : Option ℚ) : String :=
  if fleB aqi 50 then "Good"
  else if fleB aqi 100 then "Satisfactory"
  else if fleB aqi 200 then "Moderate"
  else if fleB aqi 300 then "Poor"
  else if fleB aqi 400 then "Very Poor"
  else "Severe"

/-- The six category labels produced by `classify_aqi`. -/
def categoryLabels : List String :=
  ["Good", "Satisfactory", "Moderate", "Poor", "Very Poor", "Severe"]

/-- pandas `Series.isin` on a string column: a missing entry (`none`) never
matches any allow-list. -/
def isinStr (x : Option String) (allowed : List String) : Bool :=
  match x with
  | some c => decide (c ∈ allowed)
  | none => false

/-- pandas `Series.isin` on the derived `Year` column: a missing year never
matches. -/
def isinInt (x : Option Int) (allowed : List Int) : Bool :=
  match x with
  | some y => decide (y ∈ allowed)
  | none => false

/-- `df = df[df[city_col].isin(selected_cities)]` (line 69); a no-op when no
city column was detected. -/
def cityFilter (cityExists : Bool) (cities : List String) (t : Table) : Table :=
  if cityExists then t.filter (fun r => isinStr r.city cities) else t

/-- `df = df[df["Year"].isin(selected_years)]` (line 77); a no-op when the
derived `Year` column is absent. -/
def yearFilter (yearExists : Bool) (years : List Int) (t : Table) : Table :=
  if yearExists then t.filter (fun r => isinInt r.year years) else t

/-- The sidebar Filter Engine (lines 63-77): the city filter followed by the
year filter. -/
def applyFilters (cityExists yearExists : Bool) (cities : List String)
    (years : List Int) (t : Table) : Table :=
  yearFilter yearExists years (cityFilter cityExists cities t)

/-- `df[city_col].dropna().unique()` (line 66): the distinct present city
values of a table. -/
def cityOptions (t : Table) : List String :=
  (t.filterMap Row.city).dedup

/-- `sorted(df["Year"].dropna().unique())` (line 74): the distinct present
years of a table, in ascending order. -/
def yearOptions (t : Table) : List Int :=
  ((t.filterMap Row.year).dedup).insertionSort (· ≤ ·)

/-- The year choices the sidebar actually offers: line 74 reads `df` after
line 69 has already rebound it to the city-filtered table, so the year
multiselect is populated from the city-filtered table. -/
def yearOptionsShown (cityExists : Bool) (selCities : List String) (t : Table) : List Int :=
  yearOptions (cityFilter cityExists selCities t)

/-- The sidebar flow with both multiselects left at their defaults: the city
selection defaults to every distinct present city of the loaded table
(line 67), and the year selection defaults to every distinct present year of
the already city-filtered table (line 75). -/
def filteredDefault (cityExists yearExists : Bool) (t : Table) : Table :=
  let t1 := cityFilter cityExists (cityOptions t) t
  yearFilter yearExists (yearOptions t1) t1

/-- The present (non-NaN) values of the selected column, in row order; the
pandas reductions below default to `skipna=True`. -/
def seriesVals (t : Table) : List ℚ :=
  t.filterMap Row.value

/-- `df[pollutant].mean()` (line 104): `none` is the NaN pandas returns on an
empty or all-NaN column. -/
def seriesMean (t : Table) : Option ℚ :=
  match seriesVals t with
  | [] => none
  | v :: vs => some ((v :: vs).sum / ((v :: vs).length : ℚ))

/-- `df[pollutant].max()` (line 105). -/
def seriesMax (t : Table) : Option ℚ :=
  match seriesVals t with
  | [] => none
  | v :: vs => some (vs.foldl max v)

/-- `df[pollutant].min()` (line 106). -/
def seriesMin (t : Table) : Option ℚ :=
  match seriesVals t with
  | [] => none
  | v :: vs => some (vs.foldl min v)

/-- The square of `df[pollutant].std()` (line 107), i.e. the sample variance
with `ddof=1`.  The standard deviation itself is an irrational square root in
general; it is NaN exactly when this quantity is `none` (fewer than two
present values). -/
def seriesStdSq (t : Table) : Option ℚ :=
  match seriesMean t with
  | none => none
  | some m =>
    let vs := seriesVals t
    if vs.length < 2 then none
    else some ((vs.map (fun v => (v - m) ^ 2)).sum / ((vs.length : ℚ) - 1))

/-- The keys of `df.groupby(city_col)`: the distinct present city values in
ascending order (pandas groupby sorts its keys and drops NaN keys). -/
def cityKeys (t : Table) : List String :=
  ((t.filterMap Row.city).dedup).insertionSort (· ≤ ·)

/-- `df.groupby(city_col)[pollutant].mean()` (lines 110-111): the per-city
mean of the selected column; a city all of whose values are NaN keeps a NaN
mean entry. -/
def cityGroupMeans (t : Table) : List (String × Option ℚ) :=
  (cityKeys t).map (fun c => (c, seriesMean (t.filter (fun r => r.city == some c))))

/-- pandas `Series.idxmax` with `skipna=True`: NaN entries are skipped, the
key of the first maximal remaining value is returned, and the ValueError
raised when no value remains is modelled as `none`. -/
def idxmaxE (l : List (String × Option ℚ)) : Option String :=
  match l.filterMap (fun p => p.2.map (fun v => (p.1, v))) with
  | [] => none
  | x :: xs => some ((xs.foldl (fun best p => if best.2 < p.2 then p else best) x).1)

/-- pandas `Series.idxmin` with `skipna=True`, dually to `idxmaxE`. -/
def idxminE (l : List (String × Option ℚ)) : Option String :=
  match l.filterMap (fun p => p.2.map (fun v => (p.1, v))) with
  | [] => none
  | x :: xs => some ((xs.foldl (fun best p => if p.2 < best.2 then p else best) x).1)

/-- `worst_city = df.groupby(city_col)[pollutant].mean().idxmax()`
(line 110); `none` marks the ValueError pandas raises when the filtered
table is empty. -/
def worstCityE (t : Table) : Option String :=
  idxmaxE (cityGroupMeans t)

/-- `best_city = df.groupby(city_col)[pollutant].mean().idxmin()`
(line 111); `none` marks the ValueError raised on an empty filtered table. -/
def bestCityE (t : Table) : Option String :=
  idxminE (cityGroupMeans t)

/-- `yearly = df.groupby("Year")[pollutant].mean().reset_index()` (line 208):
one (year, mean) pair per distinct present year, in ascending year order. -/
def yearlyMeans (t : Table) : List (Int × Option ℚ) :=
  (yearOptions t).map (fun y => (y, seriesMean (t.filter (fun r => r.year == some y))))

/-- Closed-form ordinary least squares: the prediction at `x` of the
unregularized least-squares line fitted through `pts`.  This models
`sklearn.linear_model.LinearRegression().fit(X, y).predict` (lines 214-218),
which computes exactly the ordinary least-squares fit. -/
def olsPredict (pts : List (ℚ × ℚ)) (x : ℚ) : ℚ :=
  let n : ℚ := (pts.length : ℚ)
  let sx := (pts.map Prod.fst).sum
  let sy := (pts.map Prod.snd).sum
  let sxx := (pts.map (fun p => p.1 * p.1)).sum
  let sxy := (pts.map (fun p => p.1 * p.2)).sum
  let slope := (n * sxy - sx * sy) / (n * sxx - sx * sx)
  let intercept := (sy - slope * sx) / n
  intercept + slope * x

/-- Outcome of the prediction tab (lines 206-223): `skipped` when the `Year`
column is absent or fewer than two year-groups exist (no prediction is
rendered), `crash` for the ValueError sklearn raises when some year-group
mean is NaN, `pred` for a displayed (year, value) prediction. -/
inductive ForecastOutcome
  | skipped
  | crash
  | pred (year : Int) (value : ℚ)
  deriving DecidableEq, Repr

/-- All year-group means, provided every one of them is present (non-NaN). -/
def sequenceMeans : List (Int × Option ℚ) → Option (List (Int × ℚ))
  | [] => some []
  | (_, none) :: _ => none
  | (y, some v) :: rest => (sequenceMeans rest).map (fun l => (y, v) :: l)

/-- `yearly["Year"].max()` (line 217); the `[]` case is unreachable under the
two-group guard. -/
def maxYearKey (l : List (Int × Option ℚ)) : Int :=
  match l with
  | [] => 0
  | p :: ps => (ps.map Prod.fst).foldl max p.1

/-- The prediction tab (lines 206-223): skipped entirely when the `Year`
column is absent; otherwise group by year and, only when at least two
year-groups exist, fit `LinearRegression` on (year, yearly mean) and predict
at `yearly["Year"].max() + 1`.  A NaN yearly mean reaching the fit raises in
sklearn (`crash`). -/
def forecastT (yearExists : Bool) (t : Table) : ForecastOutcome :=
  if yearExists then
    let yearly := yearlyMeans t
    if 2 ≤ yearly.length then
      match sequenceMeans yearly with
      | none => ForecastOutcome.crash
      | some pts =>
        let nextYear : Int := maxYearKey yearly + 1
        ForecastOutcome.pred nextYear
          (olsPredict (pts.map (fun p => ((p.1 : ℚ), p.2))) (nextYear : ℚ))
    else ForecastOutcome.skipped
  else ForecastOutcome.skipped

/-- The membership test of the Filter Engine as one predicate: a row passes
when each present dimension allows its value; an absent dimension passes
every row. -/
def passesFilters (cityExists yearExists : Bool) (cities : List String)
    (years : List Int) (r : Row) : Bool :=
  (!cityExists || isinStr r.city cities) && (!yearExists || isinInt r.year years)

/-- A reading of Delhi in 2020, used as a concrete test row. -/
def rowDelhi2020 : Row := ⟨some "Delhi", some 2020, some 1⟩

/-- A reading of Mumbai in 2021, used as a concrete test row. -/
def rowMumbai2021 : Row := ⟨some "Mumbai", some 2021, some 1⟩

/-- A reading whose city entry is missing (NaN). -/
def rowMissingCity : Row := ⟨none, some 2020, some 5⟩

/-- A table whose readings span a single year. -/
def tableOneYear : Table := [⟨some "Delhi", some 2020, some 100⟩]

/-- A table whose yearly means are 100 for 2020 and 120 for 2021. -/
def tableTwoYears : Table :=
  [⟨some "Delhi", some 2020, some 100⟩, ⟨some "Delhi", some 2021, some 120⟩]

/-- The Filter Engine equals a single filter pass with the conjunction of the
two dimension tests. -/
theorem applyFilters_eq_filter (ce ye : Bool) (cities : List String)
    (years : List Int) (t : Table) :
    applyFilters ce ye cities years t = t.filter (passesFilters ce ye cities years) := by
  have hfun : passesFilters ce ye cities years =
      fun r => (!ce || isinStr r.city cities) && (!ye || isinInt r.year years) := rfl
  rw [hfun]
  cases ce <;> cases ye <;>
    simp [applyFilters, cityFilter, yearFilter, List.filter_filter, Bool.and_comm]

/-- Every row surviving the city filter comes from the input table. -/
theorem cityFilter_mem_subset {ce : Bool} {sel : List String} {t : Table} {r : Row}
    (hr : r ∈ cityFilter ce sel t) : r ∈ t := by
  unfold cityFilter at hr
  split at hr
  · exact (List.mem_filter.mp hr).1
  · exact hr

/-- Filtering a table by the allow-list of all its own distinct present city
values keeps exactly the rows whose city is present. -/
theorem cityFilter_options_self (t : Table) :
    cityFilter true (cityOptions t) t = t.filter (fun r => r.city.isSome) := by
  unfold cityFilter
  rw [if_pos rfl]
  apply List.filter_congr
  intro r hr
  cases hc : r.city with
  | none => simp [isinStr, hc]
  | some c =>
    have hmem : c ∈ cityOptions t := by
      rw [cityOptions, List.mem_dedup, List.mem_filterMap]
      exact ⟨r, hr, hc⟩
    simp [isinStr, hc, hmem]

/-- Filtering a table by the allow-list of all its own distinct present years
keeps exactly the rows whose year is present. -/
theorem yearFilter_options_self (t : Table) :
    yearFilter true (yearOptions t) t = t.filter (fun r => r.year.isSome) := by
  unfold yearFilter
  rw [if_pos rfl]
  apply List.filter_congr
  intro r hr
  cases hc : r.year with
  | none => simp [isinInt, hc]
  | some y =>
    have hmem : y ∈ yearOptions t := by
      rw [yearOptions, List.mem_insertionSort, List.mem_dedup, List.mem_filterMap]
      exact ⟨r, hr, hc⟩
    simp [isinInt, hc, hmem]

/-- The default-selection sidebar flow keeps exactly the rows whose filtered
dimensions are all present. -/
theorem filteredDefault_eq_filter (ce ye : Bool) (t : Table) :
    filteredDefault ce ye t =
      t.filter (fun r => (!ce || r.city.isSome) && (!ye || r.year.isSome)) := by
  cases ce <;> cases ye
  · simp [filteredDefault, cityFilter, yearFilter]
  · simp only [filteredDefault, cityFilter, Bool.false_eq_true, if_false]
    rw [yearFilter_options_self]
    apply List.filter_congr
    intro r hr
    simp
  · simp only [filteredDefault, yearFilter, Bool.false_eq_true, if_false]
    rw [cityFilter_options_self]
    apply List.filter_congr
    intro r hr
    simp
  · simp only [filteredDefault]
    rw [cityFilter_options_self, yearFilter_options_self, List.filter_filter]
    apply List.filter_congr
    intro r hr
    simp [Bool.and_comm]

/-- A value is classified "Good" exactly when it is at most 50. -/
theorem classify_eq_good_iff (v : ℚ) : classify_aqi v = "Good" ↔ v ≤ 50 := by
  unfold classify_aqi
  split_ifs with h1 h2 h3 h4 h5 <;> simp_all <;> (try constructor) <;> intros <;> linarith

/-- A value is classified "Satisfactory" exactly on the band (50, 100]. -/
theorem classify_eq_sat_iff (v : ℚ) :
    classify_aqi v = "Satisfactory" ↔ 50 < v ∧ v ≤ 100 := by
  unfold classify_aqi
  split_ifs with h1 h2 h3 h4 h5 <;> simp_all <;> (try constructor) <;> intros <;> linarith

/-- A value is classified "Moderate" exactly on the band (100, 200]. -/
theorem classify_eq_mod_iff (v : ℚ) :
    classify_aqi v = "Moderate" ↔ 100 < v ∧ v ≤ 200 := by
  unfold classify_aqi
  split_ifs with h1 h2 h3 h4 h5 <;> simp_all <;> (try constructor) <;> intros <;> linarith

/-- A value is classified "Poor" exactly on the band (200, 300]. -/
theorem classify_eq_poor_iff (v : ℚ) :
    classify_aqi v = "Poor" ↔ 200 < v ∧ v ≤ 300 := by
  unfold classify_aqi
  split_ifs with h1 h2 h3 h4 h5 <;> simp_all <;> (try constructor) <;> intros <;> linarith

/-- A value is classified "Very Poor" exactly on the band (300, 400]. -/
theorem classify_eq_vpoor_iff (v : ℚ) :
    classify_aqi v = "Very Poor" ↔ 300 < v ∧ v ≤ 400 := by
  unfold classify_aqi
  split_ifs with h1 h2 h3 h4 h5 <;> simp_all <;> (try constructor) <;> intros <;> linarith

/-- A value is classified "Severe" exactly when it exceeds 400. -/
theorem classify_eq_severe_iff (v : ℚ) : classify_aqi v = "Severe" ↔ 400 < v := by
  unfold classify_aqi
  split_ifs with h1 h2 h3 h4 h5 <;> simp_all <;> (try constructor) <;> intros <;> linarith

/-- Claim C1 (counterexample): on a missing (NaN) AQI value the row-wise
classifier does not leave the label absent — it assigns the concrete label
"Severe", one of the six category labels, because every threshold comparison
against NaN is false and the final else-branch is taken. -/
theorem classify_missing_counterexample :
    classifyF none = "Severe" ∧ classifyF none ∈ categoryLabels :=
  ⟨rfl, by simp [classifyF, fleB, categoryLabels]⟩

/-- Claim C1 (amended): classifying a missing (NaN) AQI value does not crash,
but the assigned label is "Severe" rather than absent; on present values the
applied classifier agrees with the pure band function. -/
theorem classify_missing_amended :
    classifyF none = "Severe" ∧ ∀ v : ℚ, classifyF (some v) = classify_aqi v := by
  refine ⟨rfl, fun v => ?_⟩
  simp [classifyF, classify_aqi, fleB]

/-- Claim C2 (counterexample): on a two-row table with Delhi readings only in
2020 and Mumbai readings only in 2021, selecting only Delhi in the city
filter makes the year multiselect offer [2020], not the full year list
[2020, 2021] of the unfiltered table: the year choices are derived from the
already city-filtered table. -/
theorem year_options_shrink_counterexample :
    yearOptionsShown true ["Delhi"] [rowDelhi2020, rowMumbai2021] ≠
      yearOptions [rowDelhi2020, rowMumbai2021] := by decide

/-- Claim C2 (amended): the city choices are computed from the unfiltered
table, but the year choices are computed from the city-filtered table, so
the set of selectable years can shrink once a city filter is applied; it is
always a subset of the distinct years of the unfiltered table. -/
theorem year_options_subset (ce : Bool) (sel : List String) (t : Table) :
    yearOptionsShown ce sel t ⊆ yearOptions t := by
  intro y hy
  simp only [yearOptionsShown, yearOptions, List.mem_insertionSort, List.mem_dedup,
    List.mem_filterMap] at hy ⊢
  obtain ⟨r, hr, hry⟩ := hy
  exact ⟨r, cityFilter_mem_subset hr, hry⟩

/-- Claim C2 (witness): the subset statement applied at a concrete table and
selection. -/
theorem year_options_subset_witness :
    (2020 : ℤ) ∈ yearOptions [rowDelhi2020, rowMumbai2021] :=
  year_options_subset true ["Delhi"] [rowDelhi2020, rowMumbai2021] (by decide)

/-- Claim C3: an empty city/year selection filters every row out, and on the
resulting empty table the four scalar KPIs evaluate to NaN (`none`), while
the worst-city and best-city computations hit the ValueError pandas raises
for idxmax/idxmin of an empty series (also modelled `none`): the script
raises instead of reporting an undefined worst/best city. -/
theorem empty_selection_kpis :
    (∀ t : Table, applyFilters true true [] [] t = []) ∧
    seriesMean [] = none ∧ seriesMax [] = none ∧ seriesMin [] = none ∧
    seriesStdSq [] = none ∧ worstCityE [] = none ∧ bestCityE [] = none := by
  refine ⟨fun t => ?_, rfl, rfl, rfl, rfl, rfl, rfl⟩
  rw [applyFilters_eq_filter]
  rw [List.filter_eq_nil_iff]
  intro r hr
  cases hc : r.city <;> simp [passesFilters, isinStr, hc]

/-- Claim C4 (counterexample): with the full default selections, a one-row
table whose city entry is missing is filtered down to the empty table, so
the default-selection flow does not return the unfiltered input for every
table. -/
theorem full_default_counterexample :
    filteredDefault true true [rowMissingCity] ≠ [rowMissingCity] := by decide

/-- Claim C4 (amended): applying the Filter Engine with the full default
selections returns the input table restricted to the rows all of whose
filtered dimension values are present; in particular it equals the whole
input exactly when no row of a filtered dimension is missing a value. -/
theorem full_default_filter_eq (ce ye : Bool) (t : Table) :
    filteredDefault ce ye t =
      t.filter (fun r => (!ce || r.city.isSome) && (!ye || r.year.isSome)) :=
  filteredDefault_eq_filter ce ye t

/-- Claim C5: the category classifier realises exactly the six
inclusive-upper-bound bands of the spec, and each boundary is inclusive on
the lower band: 50 is classified "Good" and 51 "Satisfactory". -/
theorem classify_bands (v : ℚ) :
    (classify_aqi v = "Good" ↔ v ≤ 50) ∧
    (classify_aqi v = "Satisfactory" ↔ 50 < v ∧ v ≤ 100) ∧
    (classify_aqi v = "Moderate" ↔ 100 < v ∧ v ≤ 200) ∧
    (classify_aqi v = "Poor" ↔ 200 < v ∧ v ≤ 300) ∧
    (classify_aqi v = "Very Poor" ↔ 300 < v ∧ v ≤ 400) ∧
    (classify_aqi v = "Severe" ↔ 400 < v) ∧
    classify_aqi (50 : ℚ) = "Good" ∧ classify_aqi (51 : ℚ) = "Satisfactory" :=
  ⟨classify_eq_good_iff v, classify_eq_sat_iff v, classify_eq_mod_iff v,
    classify_eq_poor_iff v, classify_eq_vpoor_iff v, classify_eq_severe_iff v,
    by norm_num [classify_aqi], by norm_num [classify_aqi]⟩

/-- Claim C6: whenever the per-year means of the filtered table are exactly
100 for 2020 and 120 for 2021, the prediction tab fits the least-squares
line and displays the value 140 for the year 2022, the maximum observed
year plus one. -/
theorem forecast_two_year_example (t : Table)
    (h : yearlyMeans t = [(2020, some 100), (2021, some 120)]) :
    forecastT true t = ForecastOutcome.pred 2022 140 := by
  simp only [forecastT, h, if_true]
  norm_num [sequenceMeans, maxYearKey, olsPredict]

/-- Claim C6 (witness): the two-point prediction evaluated on a concrete
table realising the 2020 and 2021 means. -/
theorem forecast_two_year_example_witness :
    forecastT true tableTwoYears = ForecastOutcome.pred 2022 140 :=
  forecast_two_year_example tableTwoYears (by
    norm_num [tableTwoYears, yearlyMeans, yearOptions, seriesMean, seriesVals,
      List.insertionSort, List.orderedInsert, List.filterMap, List.filter, List.dedup])

/-- Claim C7: when the filtered table holds fewer than two year-groups the
prediction tab renders no prediction at all — the regression fit is never
attempted, so it can neither crash nor propagate NaN. -/
theorem forecast_insufficient_years (ye : Bool) (t : Table)
    (h : (yearlyMeans t).length < 2) :
    forecastT ye t = ForecastOutcome.skipped := by
  have h2 : ¬ (2 ≤ (yearlyMeans t).length) := by omega
  cases ye
  · rfl
  · simp [forecastT, h2]

/-- Claim C7 (witness): the guard evaluated on a concrete one-year table. -/
theorem forecast_insufficient_years_witness :
    forecastT true tableOneYear = ForecastOutcome.skipped :=
  forecast_insufficient_years true tableOneYear (by decide)

/-- Claim C8: for every table and selection the Filter Engine returns exactly
the rows whose city value is in the allowed city set (when a city column
exists) and whose year is in the allowed year set (when a Year column
exists); an absent dimension passes every row through. -/
theorem filter_engine_characterization (ce ye : Bool) (cities : List String)
    (years : List Int) (t : Table) :
    applyFilters ce ye cities years t = t.filter (passesFilters ce ye cities years) :=
  applyFilters_eq_filter ce ye cities years t

/-- Claim C9: the Filter Engine is idempotent — applying it twice with the
same fixed selection yields the same table as applying it once. -/
theorem filter_idempotent (ce ye : Bool) (cities : List String) (years : List Int)
    (t : Table) :
    applyFilters ce ye cities years (applyFilters ce ye cities years t) =
      applyFilters ce ye cities years t := by
  simp only [applyFilters_eq_filter, List.filter_filter, Bool.and_self]

/-- Claim C10: the Filter Engine never adds, duplicates, or reorders rows —
its output is a subsequence of the input table, with the surviving rows in
their original relative order, for every selection. -/
theorem filter_rows_sublist (ce ye : Bool) (cities : List String) (years : List Int)
    (t : Table) :
    (applyFilters ce ye cities years t).Sublist t := by
  rw [applyFilters_eq_filter]
  exact List.filter_sublist t
